import Mathlib

/-!
Shallow embedding of the client-side form scripts of the Item Weight Measure
doctype (repository RAYANaouf/data-analytics).

Two source files are embedded:
  * src/data_analytics/data_analytics/doctype/item_weight_measure/item_weight_measure.js
    (the modern script: date defaults, generate button with table clearing and
    three-way distribution, reset-to-zero corrector), and
  * src/unnamed/part_000 (a legacy variant whose generate button performs no
    clearing and appends only to the items table, with field names
    item_code / total_qty / ym).

Dates are calendar triples; quantities are integers; child-table rows are
records whose numeric fields are Option Int, with none standing for a field
that is absent on the JavaScript object (reading an absent key yields
undefined). Remote calls and user-visible alerts are recorded explicitly so
that frame conditions about them can be stated.
-/

/-- A calendar date, as handled by frappe.datetime (year, month 1..12, day). -/
structure Date where
  year : Int
  month : Nat
  day : Nat
  deriving Repr, DecidableEq

/-- Gregorian leap-year test, as used by calendar month arithmetic. -/
def isLeap (y : Int) : Bool :=
  (y % 4 == 0 && y % 100 != 0) || (y % 400 == 0)

/-- Number of days in a month of a given year. -/
def daysInMonth (y : Int) (m : Nat) : Nat :=
  if m = 2 then (if isLeap y then 29 else 28)
  else if m = 4 ∨ m = 6 ∨ m = 9 ∨ m = 11 then 30
  else 31

/-- Validity of a calendar date. -/
def Date.Valid (d : Date) : Prop :=
  1 ≤ d.month ∧ d.month ≤ 12 ∧ 1 ≤ d.day ∧ d.day ≤ daysInMonth d.year d.month

/-- frappe.datetime.add_months: shift a date by n calendar months, clamping
the day to the length of the target month (moment.js semantics). -/
def add_months (d : Date) (n : Int) : Date :=
  let t : Int := d.year * 12 + ((d.month : Int) - 1) + n
  let y : Int := t / 12
  let m : Nat := (t % 12).toNat + 1
  { year := y, month := m, day := min d.day (daysInMonth y m) }

/-- One row of the server response in the modern shape, item_weight_measure.js
lines 64-91: fields item, best_sell, date, need, on_stock, overload. -/
structure ItemResultRow where
  item : String
  best_sell : Int
  date : String
  need : Int
  on_stock : Int
  overload : Int
  deriving Repr, DecidableEq

/-- One row of the server response in the legacy shape consumed by
src/unnamed/part_000 lines 55-60: fields item_code, total_qty, ym. -/
structure LegacyResultRow where
  item_code : String
  total_qty : Int
  ym : String
  deriving Repr, DecidableEq

/-- A child-table row as built by frm.add_child. Numeric fields are optional:
none models a key that is absent on the JavaScript object. The best_sell
field is never set by either add_child call site, but reset_to_zero_btn reads
it as a fallback, so it is part of the row model. -/
structure DerivedRow where
  item : String
  qty : Option Int
  date : String
  need : Option Int
  on_stock : Option Int
  overload : Option Int
  best_sell : Option Int
  deriving Repr, DecidableEq

/-- The form state: the query fields and the three child tables. -/
structure FormState where
  company : Option String
  warehouse : Option String
  from_date : Option Date
  to_date : Option Date
  items : List DerivedRow
  negative_stock_items : List DerivedRow
  overload_items : List DerivedRow
  deriving Repr, DecidableEq

/-- A remote call issued through frappe.call: method name and arguments. -/
structure RemoteCall where
  method : String
  company : Option String
  warehouse : Option String
  from_date : Option Date
  to_date : Option Date
  deriving Repr, DecidableEq

/-- Outcome of a button handler: the new form state, the user-visible alerts
it emitted, and the remote calls it issued. -/
structure ActionOut where
  frm : FormState
  alerts : List String
  calls : List RemoteCall
  deriving Repr, DecidableEq

/-- setDefaultDates (item_weight_measure.js lines 14-24): compute the first
day of the month 12 months before today, then fill from_date and to_date
only when they are unset. -/
def setDefaultDates (today : Date) (frm : FormState) : FormState :=
  let d := add_months today (-12)
  let firstDay : Date := { d with day := 1 }
  let frm1 :=
    if frm.from_date.isNone then { frm with from_date := some firstDay } else frm
  if frm1.to_date.isNone then { frm1 with to_date := some today } else frm1

/-- The onload handler calls setDefaultDates once. -/
def onload (today : Date) (frm : FormState) : FormState :=
  setDefaultDates today frm

/-- The add_child dictionary of the modern generate callback
(item_weight_measure.js lines 65-72 and the two conditional copies):
item, date, need, on_stock, overload are copied; the response field
best_sell is stored under the child field qty; no best_sell key is set. -/
def toDerived (r : ItemResultRow) : DerivedRow :=
  { item := r.item
    qty := some r.best_sell
    date := r.date
    need := some r.need
    on_stock := some r.on_stock
    overload := some r.overload
    best_sell := none }

/-- Body of the forEach in the modern generate callback
(item_weight_measure.js lines 64-91): append to items unconditionally,
to negative_stock_items when on_stock < 0, to overload_items when
overload > 0. -/
def distributeOne (s : FormState) (r : ItemResultRow) : FormState :=
  let s1 := { s with items := s.items ++ [toDerived r] }
  let s2 :=
    if r.on_stock < 0 then
      { s1 with negative_stock_items := s1.negative_stock_items ++ [toDerived r] }
    else s1
  if r.overload > 0 then
    { s2 with overload_items := s2.overload_items ++ [toDerived r] }
  else s2

/-- The whole forEach loop over the response rows. -/
def distribute (s : FormState) (results : List ItemResultRow) : FormState :=
  results.foldl distributeOne s

/-- The three clear_table calls at the top of generate_btn
(item_weight_measure.js lines 42-49). -/
def clear_tables (frm : FormState) : FormState :=
  { frm with items := [], negative_stock_items := [], overload_items := [] }

/-- The frappe.call issued by generate_btn, with its argument dictionary
(item_weight_measure.js lines 51-59). -/
def generate_request (frm : FormState) : RemoteCall :=
  { method := "data_analytics.data_analytics.doctype.item_weight_measure.item_weight_measure.generate_item_best_month"
    company := frm.company
    warehouse := frm.warehouse
    from_date := frm.from_date
    to_date := frm.to_date }

/-- generate_btn of item_weight_measure.js, given the response rows the
server returns: clear the three tables, then distribute the response. -/
def generate_btn (frm : FormState) (results : List ItemResultRow) : FormState :=
  distribute (clear_tables frm) results

/-- The add_child dictionary of the legacy generate callback
(src/unnamed/part_000 lines 56-60): item_code is stored under item,
total_qty under qty, ym under date; no other keys are set. -/
def legacy_toDerived (r : LegacyResultRow) : DerivedRow :=
  { item := r.item_code
    qty := some r.total_qty
    date := r.ym
    need := none
    on_stock := none
    overload := none
    best_sell := none }

/-- generate_btn of src/unnamed/part_000, given the response rows: no
clear_table call is made; every response row is appended to items only. -/
def legacy_generate_btn (frm : FormState) (results : List LegacyResultRow) : FormState :=
  { frm with items := frm.items ++ results.map legacy_toDerived }

/-- The quantity read inside reset_to_zero_btn
(item_weight_measure.js line 112): Number(r.qty ?? r.best_sell) || 0, that
is r.qty when present, else r.best_sell when present, else 0. -/
def resetQty (r : DerivedRow) : Int :=
  match r.qty with
  | some q => q
  | none =>
    match r.best_sell with
    | some b => b
    | none => 0

/-- The per-row mutation of reset_to_zero_btn (item_weight_measure.js lines
114-116): on_stock becomes 0, need becomes the quantity, overload becomes 0. -/
def resetRow (r : DerivedRow) : DerivedRow :=
  { r with on_stock := some 0, need := some (resetQty r), overload := some 0 }

/-- reset_to_zero_btn (item_weight_measure.js lines 100-122): on an empty
negative_stock_items table, show one alert and stop; otherwise ask for
confirmation and, when confirmed, map resetRow over negative_stock_items and
show one completion alert. No remote call is ever issued. -/
def reset_to_zero_btn (frm : FormState) (confirmed : Bool) : ActionOut :=
  if frm.negative_stock_items.isEmpty then
    { frm := frm
      alerts := ["No rows in Negative Stock Items."]
      calls := [] }
  else if confirmed then
    { frm := { frm with
                negative_stock_items := frm.negative_stock_items.map resetRow }
      alerts := ["Reset complete."]
      calls := [] }
  else
    { frm := frm, alerts := [], calls := [] }

/-- A form with no query fields set and all three tables empty. -/
def emptyFrm : FormState :=
  { company := none, warehouse := none, from_date := none, to_date := none
    items := [], negative_stock_items := [], overload_items := [] }

/-- Response row A of the end-to-end example: negative stock. -/
def rowA : ItemResultRow :=
  { item := "A", best_sell := 10, date := "2024-06", need := 8,
    on_stock := -2, overload := 0 }

/-- Response row B of the end-to-end example: positive overload. -/
def rowB : ItemResultRow :=
  { item := "B", best_sell := 5, date := "2024-03", need := 5,
    on_stock := 0, overload := 3 }

/-- The two-row example response. -/
def exResults : List ItemResultRow := [rowA, rowB]

/-- A stale child row left over from a previous generation. -/
def staleRow : DerivedRow :=
  { item := "X", qty := some 1, date := "2024-01", need := some 1,
    on_stock := some (-1), overload := some 0, best_sell := none }

/-- A form still holding stale rows from a previous generation. -/
def staleFrm : FormState :=
  { emptyFrm with items := [staleRow], negative_stock_items := [staleRow] }

/-- The legacy-shape row corresponding to rowA. -/
def legacyRowA : LegacyResultRow :=
  { item_code := "A", total_qty := 10, ym := "2024-06" }

/-- A negative-stock child row with qty present. -/
def negRow : DerivedRow :=
  { item := "A", qty := some 5, date := "2024-06", need := some 2,
    on_stock := some (-3), overload := some 0, best_sell := none }

/-- A form whose negative_stock_items table holds negRow. -/
def negFrm : FormState :=
  { emptyFrm with negative_stock_items := [negRow] }

/-- A concrete current date. -/
def today0 : Date := { year := 2025, month := 10, day := 11 }

/-- A form whose date fields are both already set by the user. -/
def fullFrm : FormState :=
  { emptyFrm with
      from_date := some { year := 2024, month := 3, day := 15 }
      to_date := some { year := 2025, month := 1, day := 2 } }

/-! ### Helper lemmas about the distributor -/

theorem distributeOne_items (s : FormState) (r : ItemResultRow) :
    (distributeOne s r).items = s.items ++ [toDerived r] := by
  simp only [distributeOne]
  split_ifs <;> rfl

theorem distributeOne_neg (s : FormState) (r : ItemResultRow) :
    (distributeOne s r).negative_stock_items =
      s.negative_stock_items ++ (if r.on_stock < 0 then [toDerived r] else []) := by
  simp only [distributeOne]
  split_ifs <;> simp

theorem distributeOne_over (s : FormState) (r : ItemResultRow) :
    (distributeOne s r).overload_items =
      s.overload_items ++ (if r.overload > 0 then [toDerived r] else []) := by
  simp only [distributeOne]
  split_ifs <;> simp

theorem distribute_cons (s : FormState) (r : ItemResultRow)
    (rs : List ItemResultRow) :
    distribute s (r :: rs) = distribute (distributeOne s r) rs := rfl

theorem distribute_items_eq (rs : List ItemResultRow) :
    ∀ s : FormState, (distribute s rs).items = s.items ++ rs.map toDerived := by
  induction rs with
  | nil => intro s; simp [distribute]
  | cons r rs ih =>
    intro s
    rw [distribute_cons, ih, distributeOne_items]
    simp

theorem distribute_neg_eq (rs : List ItemResultRow) :
    ∀ s : FormState,
      (distribute s rs).negative_stock_items =
        s.negative_stock_items ++
          (rs.filter (fun r => r.on_stock < 0)).map toDerived := by
  induction rs with
  | nil => intro s; simp [distribute]
  | cons r rs ih =>
    intro s
    rw [distribute_cons, ih, distributeOne_neg, List.filter_cons]
    by_cases h : r.on_stock < 0 <;> simp [h]

theorem distribute_over_eq (rs : List ItemResultRow) :
    ∀ s : FormState,
      (distribute s rs).overload_items =
        s.overload_items ++
          (rs.filter (fun r => r.overload > 0)).map toDerived := by
  induction rs with
  | nil => intro s; simp [distribute]
  | cons r rs ih =>
    intro s
    rw [distribute_cons, ih, distributeOne_over, List.filter_cons]
    by_cases h : r.overload > 0 <;> simp [h]

theorem generate_items_eq (frm : FormState) (results : List ItemResultRow) :
    (generate_btn frm results).items = results.map toDerived := by
  rw [generate_btn, distribute_items_eq]
  simp [clear_tables]

theorem generate_neg_eq (frm : FormState) (results : List ItemResultRow) :
    (generate_btn frm results).negative_stock_items =
      (results.filter (fun r => r.on_stock < 0)).map toDerived := by
  rw [generate_btn, distribute_neg_eq]
  simp [clear_tables]

theorem generate_over_eq (frm : FormState) (results : List ItemResultRow) :
    (generate_btn frm results).overload_items =
      (results.filter (fun r => r.overload > 0)).map toDerived := by
  rw [generate_btn, distribute_over_eq]
  simp [clear_tables]

/-! ### Claim theorems -/

/-- Claim C1: after distribution, every response row with on_stock < 0 appears
in both items and negative_stock_items, every row with overload > 0 appears in
both items and overload_items, every row placed in negative_stock_items has a
negative on_stock, and every row placed in overload_items has a positive
overload. -/
theorem generate_distribution_membership (frm : FormState)
    (results : List ItemResultRow) (r : ItemResultRow) (hr : r ∈ results) :
    (r.on_stock < 0 →
      toDerived r ∈ (generate_btn frm results).items ∧
      toDerived r ∈ (generate_btn frm results).negative_stock_items) ∧
    (r.overload > 0 →
      toDerived r ∈ (generate_btn frm results).items ∧
      toDerived r ∈ (generate_btn frm results).overload_items) ∧
    (∀ d ∈ (generate_btn frm results).negative_stock_items,
      ∃ v, d.on_stock = some v ∧ v < 0) ∧
    (∀ d ∈ (generate_btn frm results).overload_items,
      ∃ v, d.overload = some v ∧ v > 0) := by
  rw [generate_items_eq, generate_neg_eq, generate_over_eq]
  refine ⟨?_, ?_, ?_, ?_⟩
  · intro hneg
    exact ⟨List.mem_map_of_mem _ hr,
      List.mem_map_of_mem _ (List.mem_filter.mpr ⟨hr, by simpa using hneg⟩)⟩
  · intro hover
    exact ⟨List.mem_map_of_mem _ hr,
      List.mem_map_of_mem _ (List.mem_filter.mpr ⟨hr, by simpa using hover⟩)⟩
  · intro d hd
    obtain ⟨x, hx, hdx⟩ := List.mem_map.mp hd
    obtain ⟨-, hneg⟩ := List.mem_filter.mp hx
    exact ⟨x.on_stock, by rw [← hdx]; rfl, by simpa using hneg⟩
  · intro d hd
    obtain ⟨x, hx, hdx⟩ := List.mem_map.mp hd
    obtain ⟨-, hover⟩ := List.mem_filter.mp hx
    exact ⟨x.overload, by rw [← hdx]; rfl, by simpa using hover⟩

/-- Witness for C1 at the end-to-end example: rowA has on_stock = -2 and
lands in both items and negative_stock_items. -/
theorem generate_distribution_membership_witness :
    rowA ∈ exResults ∧ rowA.on_stock < 0 ∧
    toDerived rowA ∈ (generate_btn emptyFrm exResults).items ∧
    toDerived rowA ∈ (generate_btn emptyFrm exResults).negative_stock_items :=
  ⟨by decide, by decide,
    ((generate_distribution_membership emptyFrm exResults rowA
        (by decide)).1 (by decide)).1,
    ((generate_distribution_membership emptyFrm exResults rowA
        (by decide)).1 (by decide)).2⟩

/-- Claim C2: after generation, items holds exactly one DerivedRow per
response row in response order, so its length equals the number of response
rows, and negative_stock_items and overload_items are the order-preserving
filters of the response. -/
theorem generate_distribution_shape (frm : FormState)
    (results : List ItemResultRow) :
    (generate_btn frm results).items = results.map toDerived ∧
    (generate_btn frm results).items.length = results.length ∧
    (generate_btn frm results).negative_stock_items =
      (results.filter (fun r => r.on_stock < 0)).map toDerived ∧
    (generate_btn frm results).overload_items =
      (results.filter (fun r => r.overload > 0)).map toDerived :=
  ⟨generate_items_eq frm results,
    by rw [generate_items_eq]; simp,
    generate_neg_eq frm results,
    generate_over_eq frm results⟩

/-- Counterexample to claim C3 as stated: the legacy generate action of
src/unnamed/part_000, invoked with an empty result set on a form holding
stale rows, leaves items and negative_stock_items non-empty. -/
theorem legacy_generate_retains_stale :
    (legacy_generate_btn staleFrm []).items ≠ [] ∧
    (legacy_generate_btn staleFrm []).negative_stock_items ≠ [] := by
  decide

/-- Claim C3 (amended): the modern generate action clears all three
collections, so an empty result set leaves all three empty; the legacy
generate action of src/unnamed/part_000 performs no clearing, so an empty
result set leaves all three collections exactly as they were. -/
theorem generate_clearing (frm : FormState) :
    (generate_btn frm []).items = [] ∧
    (generate_btn frm []).negative_stock_items = [] ∧
    (generate_btn frm []).overload_items = [] ∧
    (legacy_generate_btn frm []).items = frm.items ∧
    (legacy_generate_btn frm []).negative_stock_items =
      frm.negative_stock_items ∧
    (legacy_generate_btn frm []).overload_items = frm.overload_items := by
  refine ⟨?_, ?_, ?_, ?_, rfl, rfl⟩
  · rw [generate_items_eq]; rfl
  · rw [generate_neg_eq]; rfl
  · rw [generate_over_eq]; rfl
  · simp [legacy_generate_btn]

/-- Claim C4: after a confirmed reset-to-zero on a non-empty
negative_stock_items table, every row has on_stock = 0, need = the row
quantity (qty when present, else best_sell when present, else 0) and
overload = 0. -/
theorem reset_confirmed_postcondition (frm : FormState)
    (h : frm.negative_stock_items ≠ []) :
    (reset_to_zero_btn frm true).frm.negative_stock_items =
      frm.negative_stock_items.map (fun r =>
        { r with
            on_stock := some 0
            need := some (r.qty.getD (r.best_sell.getD 0))
            overload := some 0 }) := by
  have hq : ∀ r : DerivedRow,
      resetRow r =
        { r with
            on_stock := some 0
            need := some (r.qty.getD (r.best_sell.getD 0))
            overload := some 0 } := by
    intro r
    cases hqo : r.qty <;> cases hbo : r.best_sell <;>
      simp [resetRow, resetQty, hqo, hbo]
  have hne : frm.negative_stock_items.isEmpty = false := by
    cases hl : frm.negative_stock_items with
    | nil => exact absurd hl h
    | cons a l => rfl
  simp only [reset_to_zero_btn, hne, Bool.false_eq_true, if_false, if_true]
  exact List.map_congr_left (fun r _ => hq r)

/-- Witness for C4: resetting negFrm (one row, qty = 5, on_stock = -3,
need = 2, overload = 0) yields a row with on_stock = 0, need = 5,
overload = 0. -/
theorem reset_confirmed_postcondition_witness :
    negFrm.negative_stock_items ≠ [] ∧
    (reset_to_zero_btn negFrm true).frm.negative_stock_items =
      [{ item := "A", qty := some 5, date := "2024-06", need := some 5,
         on_stock := some 0, overload := some 0, best_sell := none }] :=
  ⟨by decide,
    (reset_confirmed_postcondition negFrm (by decide)).trans (by decide)⟩

/-- Claim C5: reset-to-zero on an empty negative_stock_items table leaves the
whole form state unchanged, emits exactly one alert, and issues no remote
call. -/
theorem reset_empty_noop (frm : FormState) (confirmed : Bool)
    (h : frm.negative_stock_items = []) :
    (reset_to_zero_btn frm confirmed).frm = frm ∧
    (reset_to_zero_btn frm confirmed).alerts.length = 1 ∧
    (reset_to_zero_btn frm confirmed).calls = [] := by
  have he : frm.negative_stock_items.isEmpty = true := by rw [h]; rfl
  simp [reset_to_zero_btn, he]

/-- Witness for C5 at the empty form. -/
theorem reset_empty_noop_witness :
    emptyFrm.negative_stock_items = [] ∧
    (reset_to_zero_btn emptyFrm true).frm = emptyFrm ∧
    (reset_to_zero_btn emptyFrm true).alerts.length = 1 ∧
    (reset_to_zero_btn emptyFrm true).calls = [] :=
  ⟨rfl,
    (reset_empty_noop emptyFrm true rfl).1,
    (reset_empty_noop emptyFrm true rfl).2.1,
    (reset_empty_noop emptyFrm true rfl).2.2⟩

/-- Claim C6: when both date fields are unset, the default resolver sets
to_date to today and from_date to the first day of the month 12 calendar
months before today. -/
theorem default_dates_both_unset (today : Date) (frm : FormState)
    (hv : today.Valid) (hf : frm.from_date = none) (ht : frm.to_date = none) :
    (setDefaultDates today frm).to_date = some today ∧
    (setDefaultDates today frm).from_date =
      some { year := today.year - 1, month := today.month, day := 1 } := by
  obtain ⟨h1, h2, -, -⟩ := hv
  have hy : (add_months today (-12)).year = today.year - 1 := by
    show (today.year * 12 + ((today.month : Int) - 1) + -12) / 12 =
      today.year - 1
    omega
  have hm : (add_months today (-12)).month = today.month := by
    show ((today.year * 12 + ((today.month : Int) - 1) + -12) % 12).toNat + 1 =
      today.month
    omega
  constructor
  · simp [setDefaultDates, hf, ht]
  · simp [setDefaultDates, hf, ht, hy, hm]

/-- Witness for C6: on 2025-10-11 with both fields unset, to_date becomes
2025-10-11 and from_date becomes 2024-10-01. -/
theorem default_dates_both_unset_witness :
    today0.Valid ∧ emptyFrm.from_date = none ∧ emptyFrm.to_date = none ∧
    (setDefaultDates today0 emptyFrm).to_date = some today0 ∧
    (setDefaultDates today0 emptyFrm).from_date =
      some { year := 2024, month := 10, day := 1 } :=
  ⟨by unfold Date.Valid; decide, rfl, rfl,
    (default_dates_both_unset today0 emptyFrm
      (by unfold Date.Valid; decide) rfl rfl).1,
    (default_dates_both_unset today0 emptyFrm
      (by unfold Date.Valid; decide) rfl rfl).2⟩

/-- Claim C7: the default resolver never overwrites a date field that already
holds a value; each of from_date and to_date is left unchanged whenever it is
set. -/
theorem default_dates_preserve_set (today : Date) (frm : FormState) :
    (frm.from_date.isSome = true →
      (setDefaultDates today frm).from_date = frm.from_date) ∧
    (frm.to_date.isSome = true →
      (setDefaultDates today frm).to_date = frm.to_date) := by
  constructor
  · intro hf
    cases hfo : frm.from_date with
    | none => rw [hfo] at hf; cases hf
    | some d =>
      simp only [setDefaultDates]
      by_cases hit : frm.to_date.isNone <;> simp [hfo, hit]
  · intro ht
    cases hto : frm.to_date with
    | none => rw [hto] at ht; cases ht
    | some d =>
      simp only [setDefaultDates]
      by_cases hif : frm.from_date.isNone <;> simp [hif, hto]

/-- Witness for C7: fullFrm has both dates set and the resolver changes
neither. -/
theorem default_dates_preserve_set_witness :
    (setDefaultDates today0 fullFrm).from_date = fullFrm.from_date ∧
    (setDefaultDates today0 fullFrm).to_date = fullFrm.to_date :=
  ⟨(default_dates_preserve_set today0 fullFrm).1 rfl,
    (default_dates_preserve_set today0 fullFrm).2 rfl⟩

/-- Counterexample to claim C8 as stated: on equivalent responses (legacyRowA
versus rowA) the legacy handler and the modern handler do not produce the
same collections; the legacy handler leaves negative_stock_items empty while
the modern handler populates it. -/
theorem legacy_not_equivalent :
    (legacy_generate_btn emptyFrm [legacyRowA]).negative_stock_items = [] ∧
    (generate_btn emptyFrm [rowA]).negative_stock_items ≠ [] ∧
    (legacy_generate_btn emptyFrm [legacyRowA]).negative_stock_items ≠
      (generate_btn emptyFrm [rowA]).negative_stock_items := by
  decide

/-- Claim C8 (amended): there is no normalizing Distributor; the two response
shapes are consumed by two distinct handlers. The legacy handler maps
item_code to item, total_qty to qty and ym to date, leaves need, on_stock and
overload absent, appends only to items, and never touches
negative_stock_items or overload_items. -/
theorem legacy_shape_handling (frm : FormState)
    (lrs : List LegacyResultRow) (lr : LegacyResultRow) :
    ((legacy_toDerived lr).item = lr.item_code ∧
     (legacy_toDerived lr).qty = some lr.total_qty ∧
     (legacy_toDerived lr).date = lr.ym ∧
     (legacy_toDerived lr).need = none ∧
     (legacy_toDerived lr).on_stock = none ∧
     (legacy_toDerived lr).overload = none) ∧
    (legacy_generate_btn frm lrs).items = frm.items ++ lrs.map legacy_toDerived ∧
    (legacy_generate_btn frm lrs).negative_stock_items =
      frm.negative_stock_items ∧
    (legacy_generate_btn frm lrs).overload_items = frm.overload_items :=
  ⟨⟨rfl, rfl, rfl, rfl, rfl, rfl⟩, rfl, rfl, rfl⟩

/-- Claim C9: reset-to-zero, confirmed or not, leaves items, overload_items
and every query field unchanged and issues no remote call. -/
theorem reset_frame (frm : FormState) (confirmed : Bool) :
    (reset_to_zero_btn frm confirmed).frm.items = frm.items ∧
    (reset_to_zero_btn frm confirmed).frm.overload_items =
      frm.overload_items ∧
    (reset_to_zero_btn frm confirmed).frm.company = frm.company ∧
    (reset_to_zero_btn frm confirmed).frm.warehouse = frm.warehouse ∧
    (reset_to_zero_btn frm confirmed).frm.from_date = frm.from_date ∧
    (reset_to_zero_btn frm confirmed).frm.to_date = frm.to_date ∧
    (reset_to_zero_btn frm confirmed).calls = [] := by
  simp only [reset_to_zero_btn]
  split_ifs <;> exact ⟨rfl, rfl, rfl, rfl, rfl, rfl, rfl⟩

/-- Claim C10: the modern distributor stores the response best_sell under the
child field qty and sets no best_sell key, copies item, date, need, on_stock
and overload verbatim, and consequently every row of negative_stock_items
produced by generation has a present qty field. -/
theorem derived_row_qty_field (frm : FormState)
    (results : List ItemResultRow) (r : ItemResultRow) :
    ((toDerived r).qty = some r.best_sell ∧
     (toDerived r).best_sell = none ∧
     (toDerived r).item = r.item ∧
     (toDerived r).date = r.date ∧
     (toDerived r).need = some r.need ∧
     (toDerived r).on_stock = some r.on_stock ∧
     (toDerived r).overload = some r.overload) ∧
    (∀ d ∈ (generate_btn frm results).negative_stock_items,
      d.qty.isSome = true) := by
  refine ⟨⟨rfl, rfl, rfl, rfl, rfl, rfl, rfl⟩, ?_⟩
  intro d hd
  rw [generate_neg_eq] at hd
  obtain ⟨x, -, hdx⟩ := List.mem_map.mp hd
  rw [← hdx]
  rfl

/-- Witness for C10: at the end-to-end example, the derived copy of rowA is
in negative_stock_items and its qty field is present. -/
theorem derived_row_qty_field_witness :
    (toDerived rowA).qty = some rowA.best_sell ∧
    toDerived rowA ∈ (generate_btn emptyFrm exResults).negative_stock_items ∧
    (toDerived rowA).qty.isSome = true :=
  ⟨(derived_row_qty_field emptyFrm exResults rowA).1.1,
    by decide,
    (derived_row_qty_field emptyFrm exResults rowA).2 (toDerived rowA)
      (by decide)⟩
